import Mathlib

/-!
Verification of the astronomical/calendar calculator and the capability
probe of the EmployeeCompatibilityBot repository (src/astro_utils.py),
via a shallow embedding.  Python floats are modelled as exact rationals
(the spec declares float rounding out of scope), Python integers as Nat,
and the library-availability environment as a function from library
names to resolution outcomes.
-/

namespace AstroUtils

/-- Outcome of trying to resolve one optional library: either the module
resolves (possibly exposing a `__version__` string) or resolution fails
with an error message. -/
inductive ResolveResult where
| ok (version : Option String)
| fail (err : String)
deriving DecidableEq

/-- The environment seen by `check_libraries`: what resolving each library
name yields. -/
def Env : Type := String → ResolveResult

/-- One record of `AstroCalculator._check_libraries`: the dict
`{status, version?, error?, description}` built per library. -/
structure LibInfo where
status : String
version : Option String
error : Option String
description : String
deriving DecidableEq

/-- The spec's `available` flag of a CapabilityRecord: the record's status
string equals the string the code stores for resolvable libraries. -/
def LibInfo.available (i : LibInfo) : Bool := i.status == "Available"

/-- The body of each try/except block of `_check_libraries`: on success a
record with status Available and the version (getattr fallback Unknown),
on failure a record with status Not Available and the error message. -/
def probeOne (descr : String) (r : ResolveResult) : LibInfo :=
  match r with
  | .ok v => ⟨"Available", some (v.getD "Unknown"), none, descr⟩
  | .fail e => ⟨"Not Available", none, some e, descr⟩

/-- The list iterated by the final loop of `_check_libraries`. -/
def helper_lib_names : List String := ["ephem", "pytz", "dateutil"]

/-- `AstroCalculator._check_libraries`: probes flatlib, lunardate, then the
three helper libraries, collecting one record per name in probe order. -/
def check_libraries (env : Env) : List (String × LibInfo) :=
  [("flatlib", probeOne "Professional astrological calculations" (env "flatlib")),
   ("lunardate", probeOne "Lunar calendar calculations" (env "lunardate"))] ++
  helper_lib_names.map
    (fun lib_name => (lib_name, probeOne (lib_name ++ " astronomical utilities") (env lib_name)))

/-- The tracked optional-source names, in probe order. -/
def tracked_names : List String := ["flatlib", "lunardate", "ephem", "pytz", "dateutil"]

/-- `AstroCalculator`: its only state is the one-time probe result
`self.libraries_loaded`. -/
structure AstroCalculator where
libraries_loaded : List (String × LibInfo)

/-- An environment in which every optional library fails to resolve, with
the standard interpreter message. -/
def probeAllFailEnv : Env := fun n => .fail ("No module named " ++ n)

/-- A concrete calculator: constructed in the all-unresolvable environment. -/
def calc0 : AstroCalculator := ⟨check_libraries probeAllFailEnv⟩

/-- A UTC calendar instant at the resolution of a Python `datetime`:
year, month, day, hour, minute, second, microsecond. -/
structure Instant where
year : ℕ
month : ℕ
day : ℕ
hour : ℕ
minute : ℕ
second : ℕ
microsecond : ℕ
deriving DecidableEq

/-- Modelled from the spec: leap years per the standard Gregorian rule
(divisible by 4, not by 100 unless by 400); 1 on leap years, else 0. -/
def leapDay (y : ℕ) : ℕ :=
  if (y % 4 = 0 ∧ y % 100 ≠ 0) ∨ y % 400 = 0 then 1 else 0

/-- Modelled from the spec: number of days of month `m` in year `y` of the
standard Gregorian calendar (the host datetime validity rule). -/
def daysInMonth (y m : ℕ) : ℕ :=
  match m with
  | 1 => 31 | 2 => 28 + leapDay y | 3 => 31 | 4 => 30 | 5 => 31 | 6 => 30
  | 7 => 31 | 8 => 31 | 9 => 30 | 10 => 31 | 11 => 30 | _ => 31

/-- Modelled from the spec: days of year `y` strictly before month `m`. -/
def daysBeforeMonth (y m : ℕ) : ℕ :=
  match m with
  | 1 => 0 | 2 => 31 | 3 => 59 + leapDay y | 4 => 90 + leapDay y
  | 5 => 120 + leapDay y | 6 => 151 + leapDay y | 7 => 181 + leapDay y
  | 8 => 212 + leapDay y | 9 => 243 + leapDay y | 10 => 273 + leapDay y
  | 11 => 304 + leapDay y | _ => 334 + leapDay y

/-- Modelled from the spec: the standard proleptic-Gregorian date ordinal
used by the code through `datetime.toordinal()` (0001-01-01 is ordinal 1). -/
def toordinal (y m d : ℕ) : ℕ :=
  365 * (y - 1) + (y - 1) / 4 - (y - 1) / 100 + (y - 1) / 400 + daysBeforeMonth y m + d

/-- Validity of an instant: the ranges accepted by a Python `datetime`. -/
def Valid (t : Instant) : Prop :=
  1 ≤ t.year ∧ t.year ≤ 9999 ∧ 1 ≤ t.month ∧ t.month ≤ 12 ∧
  1 ≤ t.day ∧ t.day ≤ daysInMonth t.year t.month ∧
  t.hour ≤ 23 ∧ t.minute ≤ 59 ∧ t.second ≤ 59 ∧ t.microsecond ≤ 999999

instance (t : Instant) : Decidable (Valid t) := by
  unfold Valid; infer_instance

/-- Seconds elapsed since midnight of the instant's date. -/
def secondsOfDay (t : Instant) : ℕ := 3600 * t.hour + 60 * t.minute + t.second

/-- Position of the instant on the timeline, in seconds (ignoring the
microsecond component). -/
def timePosSec (t : Instant) : ℕ :=
  86400 * toordinal t.year t.month t.day + secondsOfDay t

/-- Position of the instant on the timeline, in microseconds. -/
def timePosMicro (t : Instant) : ℕ := 1000000 * timePosSec t + t.microsecond

/-- The integer part of `AstroCalculator._calculate_julian_day`: the
Gregorian Julian-day-number formula exactly as in the code (Python `//`
on the nonnegative operands arising in the valid range is Nat division). -/
def jdnInt (year month day : ℕ) : ℤ :=
  let a : ℕ := (14 - month) / 12
  let y : ℕ := year + 4800 - a
  let m : ℕ := month + 12 * a - 3
  (day : ℤ) + ((153 * m + 2) / 5 : ℕ) + 365 * (y : ℤ) + ((y / 4 : ℕ) : ℤ)
    - ((y / 100 : ℕ) : ℤ) + ((y / 400 : ℕ) : ℤ) - 32045

/-- `AstroCalculator._calculate_julian_day`: the integer Julian day number
plus the fractional day `(hour + minute/60 + second/3600) / 24`. -/
def AstroCalculator.calculate_julian_day (_c : AstroCalculator) (date : Instant) : ℚ :=
  (jdnInt date.year date.month date.day : ℚ) +
    ((date.hour : ℚ) + (date.minute : ℚ) / 60 + (date.second : ℚ) / 3600) / 24

/-- The four seasons returned by `AstroCalculator._get_season`. -/
inductive Season where
| spring
| summer
| autumn
| winter
deriving DecidableEq

/-- `AstroCalculator._get_season`: the Northern-Hemisphere if/elif chain
on the instant's month and day. -/
def AstroCalculator.get_season (_c : AstroCalculator) (date : Instant) : Season :=
  let month := date.month
  let day := date.day
  if (month = 3 ∧ day ≥ 20) ∨ month = 4 ∨ month = 5 ∨ (month = 6 ∧ day < 21) then .spring
  else if (month = 6 ∧ day ≥ 21) ∨ month = 7 ∨ month = 8 ∨ (month = 9 ∧ day < 22) then .summer
  else if (month = 9 ∧ day ≥ 22) ∨ month = 10 ∨ month = 11 ∨ (month = 12 ∧ day < 21) then .autumn
  else .winter

/-- Modelled from the spec: day-of-year, the standard 1-based ordinal day
within the instant's calendar year.  The code obtains it inside
`AstroCalculator._get_current_astronomical_data` from the Python standard
library (`now.timetuple().tm_yday`), which is not part of src/. -/
def AstroCalculator.day_of_year (_c : AstroCalculator) (t : Instant) : ℕ :=
  daysBeforeMonth t.year t.month + t.day

/-- Python float modulo on rationals: `x % y = x - y * floor (x / y)`
(for the positive modulus used here this is exactly CPython's `%`). -/
def fmod (x y : ℚ) : ℚ := x - y * ⌊x / y⌋

/-- Python `round(x, 1)` on the values reachable in this program: round
`10 * x` to the nearest integer and divide by 10.  CPython rounds ties to
even; the reachable arguments `1000 * r / 2953` (`r` integral) can never
be an exact half-integer (`2000 * r = 2953 * (2 * k + 1)` has even left
and odd right side), so the tie-breaking rule is never exercised and
round-half-up is an exact model. -/
def round1 (x : ℚ) : ℚ := ((round (x * 10) : ℤ) : ℚ) / 10

/-- The synodic-month constant `lunar_cycle = 29.53` of the code. -/
def lunar_cycle : ℚ := 29.53

/-- `days_to_new_moon` of `AstroCalculator.get_next_new_moon`, as a
function of the instant's date ordinal:
`(lunar_cycle - (ordinal % lunar_cycle)) % lunar_cycle`. -/
def days_to_new_moon (n : ℕ) : ℚ :=
  fmod (lunar_cycle - fmod (n : ℚ) lunar_cycle) lunar_cycle

/-- `days_to_full_moon` of `AstroCalculator.get_next_full_moon`, as a
function of the instant's date ordinal:
`((lunar_cycle/2) - (ordinal % lunar_cycle)) % lunar_cycle`. -/
def days_to_full_moon (n : ℕ) : ℚ :=
  fmod (lunar_cycle / 2 - fmod (n : ℚ) lunar_cycle) lunar_cycle

/-- The position of an instant on the timeline measured in (fractional)
days, used to model `now + timedelta(days=...)`. -/
def dayPosition (t : Instant) : ℚ :=
  (toordinal t.year t.month t.day : ℚ) +
    ((secondsOfDay t : ℚ) * 1000000 + (t.microsecond : ℚ)) / 86400000000

/-- `AstroCalculator.get_next_new_moon`: the instant advanced by
`days_to_new_moon` days, as a day position on the timeline (the final
`strftime` date formatting is presentation and is elided). -/
def AstroCalculator.get_next_new_moon (_c : AstroCalculator) (t : Instant) : ℚ :=
  dayPosition t + days_to_new_moon (toordinal t.year t.month t.day)

/-- `AstroCalculator.get_next_full_moon`: the instant advanced by
`days_to_full_moon` days, as a day position on the timeline (the final
`strftime` date formatting is presentation and is elided). -/
def AstroCalculator.get_next_full_moon (_c : AstroCalculator) (t : Instant) : ℚ :=
  dayPosition t + days_to_full_moon (toordinal t.year t.month t.day)

/-- `AstroCalculator.get_lunar_progress`:
`round((ordinal % lunar_cycle) / lunar_cycle * 100, 1)`. -/
def AstroCalculator.get_lunar_progress (_c : AstroCalculator) (t : Instant) : ℚ :=
  round1 (fmod ((toordinal t.year t.month t.day : ℕ) : ℚ) lunar_cycle / lunar_cycle * 100)

/-- The qualitative lunar-phase labels named by the four strings of
`AstroCalculator.get_lunar_significance`. -/
inductive Phase where
| new
| waxing
| full
| waning
deriving DecidableEq

/-- The sentence the code returns for each phase label. -/
def phaseText : Phase → String
  | .new => "🌑 New Moon Phase - Time for new beginnings and setting intentions"
  | .waxing => "🌓 Waxing Phase - Time for growth and building momentum"
  | .full => "🌕 Full Moon Phase - Time for culmination and manifestation"
  | .waning => "🌗 Waning Phase - Time for release and letting go"

/-- The threshold chain of `AstroCalculator.get_lunar_significance`, as a
function of the (rounded) progress percentage. -/
def phase_label (progress : ℚ) : Phase :=
  if progress < 25 then .new
  else if progress < 50 then .waxing
  else if progress < 75 then .full
  else .waning

/-- `AstroCalculator.get_lunar_significance`: the if/elif chain on
`self.get_lunar_progress()`, returning the phase sentence. -/
def AstroCalculator.get_lunar_significance (c : AstroCalculator) (t : Instant) : String :=
  let progress := c.get_lunar_progress t
  if progress < 25 then "🌑 New Moon Phase - Time for new beginnings and setting intentions"
  else if progress < 50 then "🌓 Waxing Phase - Time for growth and building momentum"
  else if progress < 75 then "🌕 Full Moon Phase - Time for culmination and manifestation"
  else "🌗 Waning Phase - Time for release and letting go"

/-- The always-present baseline lines of
`AstroCalculator._get_calculation_capabilities`, one list entry per line. -/
def baseline_capabilities : List String :=
  ["**Available Calculations:**",
   "• ✅ Julian Day conversions",
   "• ✅ Basic astronomical time calculations",
   "• ✅ Seasonal determinations",
   "• ✅ Date arithmetic and conversions",
   "• ✅ Time zone handling (UTC base)"]

/-- `AstroCalculator._get_calculation_capabilities`, with the built text
represented as its list of lines: the baseline block, then the flatlib
bullets when the flatlib record's status is Available, then the lunardate
bullets when the lunardate record's status is Available. -/
def AstroCalculator.get_calculation_capabilities (c : AstroCalculator) : List String :=
  baseline_capabilities ++
  (if (c.libraries_loaded.lookup "flatlib").map LibInfo.status = some "Available" then
    ["• ✅ Professional astrological calculations (flatlib)",
     "• ✅ Planetary positions and aspects",
     "• ✅ House calculations"]
   else []) ++
  (if (c.libraries_loaded.lookup "lunardate").map LibInfo.status = some "Available" then
    ["• ✅ Lunar calendar conversions",
     "• ✅ Chinese lunar date calculations"]
   else [])

/-- The spec's Spring predicate on a (month, day) pair. -/
def spring_pred (month day : ℕ) : Bool :=
  (month == 3 && 20 ≤ day) || month == 4 || month == 5 || (month == 6 && day < 21)

/-- The spec's Summer predicate on a (month, day) pair. -/
def summer_pred (month day : ℕ) : Bool :=
  (month == 6 && 21 ≤ day) || month == 7 || month == 8 || (month == 9 && day < 22)

/-- The spec's Autumn predicate on a (month, day) pair. -/
def autumn_pred (month day : ℕ) : Bool :=
  (month == 9 && 22 ≤ day) || month == 10 || month == 11 || (month == 12 && day < 21)

/-- The spec's Winter predicate on a (month, day) pair: otherwise. -/
def winter_pred (month day : ℕ) : Bool :=
  !(spring_pred month day || summer_pred month day || autumn_pred month day)

section FmodLemmas

/-- Shifting the dividend by an integer multiple of the modulus leaves
`fmod` unchanged. -/
theorem fmod_add_int_mul (x y : ℚ) (k : ℤ) (hy : y ≠ 0) :
    fmod (x + k * y) y = fmod x y := by
  unfold fmod
  have h : (x + k * y) / y = x / y + k := by
    field_simp
  rw [h, Int.floor_add_int]
  push_cast
  ring

/-- `fmod` only depends on the dividend modulo the modulus. -/
theorem fmod_congr (y : ℚ) (hy : y ≠ 0) (a b : ℚ) (k : ℤ) (h : a = b + k * y) :
    fmod a y = fmod b y := by
  rw [h, fmod_add_int_mul b y k hy]

/-- `fmod` with a positive modulus is nonnegative. -/
theorem fmod_nonneg (x y : ℚ) (hy : 0 < y) : 0 ≤ fmod x y := by
  have h : fmod x y = y * Int.fract (x / y) := by
    unfold fmod Int.fract
    field_simp
  rw [h]
  exact mul_nonneg hy.le (Int.fract_nonneg _)

/-- `fmod` with a positive modulus is below the modulus. -/
theorem fmod_lt (x y : ℚ) (hy : 0 < y) : fmod x y < y := by
  have h : fmod x y = y * Int.fract (x / y) := by
    unfold fmod Int.fract
    field_simp
  rw [h]
  calc y * Int.fract (x / y) < y * 1 := by
        exact mul_lt_mul_of_pos_left (Int.fract_lt_one _) hy
    _ = y := mul_one y

end FmodLemmas

/-- The capabilities text (as lines) produced by a calculator built over
the probe outcome of environment `env`. -/
def capabilities_of (env : Env) : List String :=
  (AstroCalculator.mk (check_libraries env)).get_calculation_capabilities

section CalendarLemmas

set_option maxHeartbeats 1000000 in
/-- The code's Julian-day-number formula equals the standard date ordinal
plus 1721425 on every valid Gregorian date. -/
theorem jdn_eq_toordinal (y m d : ℕ) (hy : 1 ≤ y) (hm1 : 1 ≤ m) (hm2 : m ≤ 12) :
    jdnInt y m d = (toordinal y m d : ℤ) + 1721425 := by
  interval_cases m <;>
    (simp only [jdnInt, toordinal, daysBeforeMonth, leapDay]
     first
       | (split_ifs <;> omega)
       | omega)

/-- On valid dates, `_calculate_julian_day` is an affine function of the
second-resolution timeline position of the instant. -/
theorem calculate_julian_day_eq_timePos (c : AstroCalculator) (t : Instant)
    (hy : 1 ≤ t.year) (hm1 : 1 ≤ t.month) (hm2 : t.month ≤ 12) :
    c.calculate_julian_day t = 1721425 + (timePosSec t : ℚ) / 86400 := by
  unfold AstroCalculator.calculate_julian_day timePosSec secondsOfDay
  rw [jdn_eq_toordinal _ _ t.day hy hm1 hm2]
  push_cast
  field_simp
  ring

end CalendarLemmas

/-- Claim C1: every calculator operation (lunar progress, next new moon,
next full moon, lunar phase label, Julian day, season, day of year) is a
pure function of the input instant alone: two calculators with arbitrary,
possibly different probe states return identical values at every instant. -/
theorem calculator_independent_of_probe (c1 c2 : AstroCalculator) (t : Instant) :
    c1.get_lunar_progress t = c2.get_lunar_progress t ∧
    c1.get_next_new_moon t = c2.get_next_new_moon t ∧
    c1.get_next_full_moon t = c2.get_next_full_moon t ∧
    c1.get_lunar_significance t = c2.get_lunar_significance t ∧
    c1.calculate_julian_day t = c2.calculate_julian_day t ∧
    c1.get_season t = c2.get_season t ∧
    c1.day_of_year t = c2.day_of_year t :=
  ⟨rfl, rfl, rfl, rfl, rfl, rfl, rfl⟩

/-- Claim C3 (code bug): at the reference epoch 2000-01-01T12:00:00 UTC
the code returns 2451545.5, not the standard Julian date 2451545.0: the
fractional day is measured from midnight instead of from noon. -/
theorem julian_day_epoch_value :
    calc0.calculate_julian_day ⟨2000, 1, 1, 12, 0, 0, 0⟩ = 2451545.5 ∧
    calc0.calculate_julian_day ⟨2000, 1, 1, 12, 0, 0, 0⟩ ≠ 2451545.0 := by
  constructor <;> norm_num [AstroCalculator.calculate_julian_day, jdnInt]

/-- Claim C4, counterexample: advancing the valid instant
2000-01-01T12:00:00.000000 by the positive duration of 500000
microseconds leaves `_calculate_julian_day` unchanged, so the function is
not strictly increasing under every positive duration. -/
theorem julian_day_not_strict_subsecond :
    Valid ⟨2000, 1, 1, 12, 0, 0, 0⟩ ∧ Valid ⟨2000, 1, 1, 12, 0, 0, 500000⟩ ∧
    timePosMicro ⟨2000, 1, 1, 12, 0, 0, 0⟩ < timePosMicro ⟨2000, 1, 1, 12, 0, 0, 500000⟩ ∧
    calc0.calculate_julian_day ⟨2000, 1, 1, 12, 0, 0, 500000⟩ =
      calc0.calculate_julian_day ⟨2000, 1, 1, 12, 0, 0, 0⟩ :=
  ⟨by decide, by decide, by decide, rfl⟩

/-- Claim C4 (amended): `_calculate_julian_day` is strictly increasing
whenever the valid instant advances by a positive duration of at least
one second, i.e. whenever the second-resolution timeline positions are
strictly ordered. -/
theorem julian_day_strict_mono (c : AstroCalculator) (t1 t2 : Instant)
    (h1 : Valid t1) (h2 : Valid t2) (h : timePosSec t1 < timePosSec t2) :
    c.calculate_julian_day t1 < c.calculate_julian_day t2 := by
  obtain ⟨hy1, -, hm11, hm12, -⟩ := h1
  obtain ⟨hy2, -, hm21, hm22, -⟩ := h2
  rw [calculate_julian_day_eq_timePos c t1 hy1 hm11 hm12,
      calculate_julian_day_eq_timePos c t2 hy2 hm21 hm22]
  have hq : (timePosSec t1 : ℚ) < (timePosSec t2 : ℚ) := by exact_mod_cast h
  linarith

/-- Claim C4, witness: the amended monotonicity at two concrete instants
one second apart. -/
theorem julian_day_strict_mono_witness :
    Valid ⟨2000, 1, 1, 0, 0, 0, 0⟩ ∧ Valid ⟨2000, 1, 1, 0, 0, 1, 0⟩ ∧
    timePosSec ⟨2000, 1, 1, 0, 0, 0, 0⟩ < timePosSec ⟨2000, 1, 1, 0, 0, 1, 0⟩ ∧
    calc0.calculate_julian_day ⟨2000, 1, 1, 0, 0, 0, 0⟩ <
      calc0.calculate_julian_day ⟨2000, 1, 1, 0, 0, 1, 0⟩ :=
  ⟨by decide, by decide, by decide,
    julian_day_strict_mono calc0 _ _ (by decide) (by decide) (by decide)⟩

/-- Claim C9: `_calculate_julian_day` reads only year, month, day, hour,
minute and second; two instants agreeing on those but differing in the
microsecond component get equal Julian days. -/
theorem julian_day_ignores_microseconds (c : AstroCalculator) (t1 t2 : Instant)
    (hy : t1.year = t2.year) (hm : t1.month = t2.month) (hd : t1.day = t2.day)
    (hh : t1.hour = t2.hour) (hmi : t1.minute = t2.minute) (hs : t1.second = t2.second)
    (_hmu : t1.microsecond ≠ t2.microsecond) :
    c.calculate_julian_day t1 = c.calculate_julian_day t2 := by
  unfold AstroCalculator.calculate_julian_day
  rw [hy, hm, hd, hh, hmi, hs]

/-- Claim C9, witness: two concrete instants one microsecond short of a
second apart share the Julian day. -/
theorem julian_day_ignores_microseconds_witness :
    (⟨2024, 6, 1, 10, 30, 15, 1⟩ : Instant).microsecond ≠
      (⟨2024, 6, 1, 10, 30, 15, 999999⟩ : Instant).microsecond ∧
    calc0.calculate_julian_day ⟨2024, 6, 1, 10, 30, 15, 1⟩ =
      calc0.calculate_julian_day ⟨2024, 6, 1, 10, 30, 15, 999999⟩ :=
  ⟨by decide,
    julian_day_ignores_microseconds calc0 _ _ rfl rfl rfl rfl rfl rfl (by decide)⟩

/-- Claim C2, counterexample: on the valid instant 0002-05-17 (date
ordinal 502, whose remainder modulo 29.53 is 29.52) the rounded progress
returned by `get_lunar_progress` is exactly 100, so the returned value is
not always below 100. -/
theorem lunar_progress_reaches_100 :
    Valid ⟨2, 5, 17, 0, 0, 0, 0⟩ ∧
    calc0.get_lunar_progress ⟨2, 5, 17, 0, 0, 0, 0⟩ = 100 :=
  ⟨by decide,
   by norm_num [AstroCalculator.get_lunar_progress, round1, fmod, lunar_cycle, round_eq,
     toordinal, daysBeforeMonth, leapDay]⟩

/-- Claim C2 (amended): the progress percentage returned by
`get_lunar_progress` always lies in the closed interval [0, 100]; it is
never negative, and because the value is rounded to one decimal it can
reach exactly 100 (the unrounded value stays below 100). -/
theorem lunar_progress_bounds (c : AstroCalculator) (t : Instant) :
    0 ≤ c.get_lunar_progress t ∧ c.get_lunar_progress t ≤ 100 := by
  have hL : (0 : ℚ) < lunar_cycle := by norm_num [lunar_cycle]
  unfold AstroCalculator.get_lunar_progress round1
  set x : ℚ := ((toordinal t.year t.month t.day : ℕ) : ℚ) with hx
  have h0 : 0 ≤ fmod x lunar_cycle := fmod_nonneg _ _ hL
  have h1 : fmod x lunar_cycle < lunar_cycle := fmod_lt _ _ hL
  have hp0 : 0 ≤ fmod x lunar_cycle / lunar_cycle * 100 := by positivity
  have hp1 : fmod x lunar_cycle / lunar_cycle * 100 < 100 := by
    have hlt : fmod x lunar_cycle / lunar_cycle < 1 := by
      rw [div_lt_one hL]
      exact h1
    linarith
  constructor
  · apply div_nonneg _ (by norm_num)
    have hr : (0 : ℤ) ≤ round (fmod x lunar_cycle / lunar_cycle * 100 * 10) := by
      rw [round_eq]
      apply Int.le_floor.mpr
      push_cast
      linarith
    exact_mod_cast hr
  · rw [div_le_iff₀ (by norm_num : (0 : ℚ) < 10)]
    have hr : round (fmod x lunar_cycle / lunar_cycle * 100 * 10) ≤ 1000 := by
      rw [round_eq]
      calc ⌊fmod x lunar_cycle / lunar_cycle * 100 * 10 + 1 / 2⌋
          ≤ ⌊(1000 : ℚ) + 1 / 2⌋ := Int.floor_mono (by linarith)
        _ = 1000 := by norm_num
    calc ((round (fmod x lunar_cycle / lunar_cycle * 100 * 10) : ℤ) : ℚ)
        ≤ (1000 : ℚ) := by exact_mod_cast hr
      _ = 100 * 10 := by norm_num

/-- Claim C10: for every instant, the days-to-full-moon offset equals the
days-to-new-moon offset advanced by half a synodic cycle, modulo the
cycle length 29.53. -/
theorem moon_offsets_half_cycle (t : Instant) :
    days_to_full_moon (toordinal t.year t.month t.day) =
      fmod (days_to_new_moon (toordinal t.year t.month t.day) + lunar_cycle / 2) lunar_cycle := by
  have hL : lunar_cycle ≠ 0 := by norm_num [lunar_cycle]
  unfold days_to_full_moon days_to_new_moon
  set x : ℚ := ((toordinal t.year t.month t.day : ℕ) : ℚ) with hx
  have e0 : fmod (lunar_cycle / 2 - fmod x lunar_cycle) lunar_cycle =
      fmod (lunar_cycle / 2 - x) lunar_cycle :=
    fmod_congr _ hL _ _ ⌊x / lunar_cycle⌋ (by unfold fmod; ring)
  have e1 : fmod (lunar_cycle - fmod x lunar_cycle) lunar_cycle =
      fmod (0 - x) lunar_cycle :=
    fmod_congr _ hL _ _ (⌊x / lunar_cycle⌋ + 1) (by unfold fmod; push_cast; ring)
  have e2 : fmod (fmod (0 - x) lunar_cycle + lunar_cycle / 2) lunar_cycle =
      fmod (lunar_cycle / 2 - x) lunar_cycle :=
    fmod_congr _ hL _ _ (-⌊(0 - x) / lunar_cycle⌋) (by unfold fmod; push_cast; ring)
  rw [e0, e1, e2]

/-- The if/elif chain of `get_lunar_significance` returns exactly the
sentence of the threshold label of its progress argument. -/
theorem phaseText_phase_label (q : ℚ) :
    (if q < 25 then "🌑 New Moon Phase - Time for new beginnings and setting intentions"
     else if q < 50 then "🌓 Waxing Phase - Time for growth and building momentum"
     else if q < 75 then "🌕 Full Moon Phase - Time for culmination and manifestation"
     else "🌗 Waning Phase - Time for release and letting go") =
      phaseText (phase_label q) := by
  unfold phase_label
  by_cases h1 : q < 25
  · rw [if_pos h1, if_pos h1]
    rfl
  · rw [if_neg h1, if_neg h1]
    by_cases h2 : q < 50
    · rw [if_pos h2, if_pos h2]
      rfl
    · rw [if_neg h2, if_neg h2]
      by_cases h3 : q < 75
      · rw [if_pos h3, if_pos h3]
        rfl
      · rw [if_neg h3, if_neg h3]
        rfl

set_option linter.unreachableTactic false in
set_option linter.unusedTactic false in
set_option linter.unnecessarySeqFocus false in
/-- Claim C7: `get_lunar_significance` is the fixed-threshold phase label
of the progress percentage: below 25 New, in [25, 50) Waxing, in [50, 75)
Full, at and above 75 Waning; in particular 24.9 maps to New, 25 to
Waxing, 49.9 to Waxing, 50 to Full, 74.9 to Full and 75 to Waning. -/
theorem lunar_phase_thresholds (c : AstroCalculator) (t : Instant) (p : ℚ) :
    c.get_lunar_significance t = phaseText (phase_label (c.get_lunar_progress t)) ∧
    (phase_label p = .new ↔ p < 25) ∧
    (phase_label p = .waxing ↔ 25 ≤ p ∧ p < 50) ∧
    (phase_label p = .full ↔ 50 ≤ p ∧ p < 75) ∧
    (phase_label p = .waning ↔ 75 ≤ p) ∧
    phase_label 24.9 = .new ∧ phase_label 25 = .waxing ∧ phase_label 49.9 = .waxing ∧
    phase_label 50 = .full ∧ phase_label 74.9 = .full ∧ phase_label 75 = .waning := by
  refine ⟨?_, ?_, ?_, ?_, ?_, ?_, ?_, ?_, ?_, ?_, ?_⟩
  · unfold AstroCalculator.get_lunar_significance
    exact phaseText_phase_label _
  · unfold phase_label
    split_ifs <;> simp_all [not_lt] <;> intros <;> linarith
  · unfold phase_label
    split_ifs <;> simp_all [not_lt] <;> intros <;> linarith
  · unfold phase_label
    split_ifs <;> simp_all [not_lt] <;> intros <;> linarith
  · unfold phase_label
    split_ifs <;> simp_all [not_lt] <;> intros <;> linarith
  all_goals norm_num [phase_label]

/-- Exhaustive check of the season predicates and `_get_season` over the
whole (month, day) grid. -/
theorem season_grid : ∀ m, m < 13 → ∀ d, d < 32 →
    ([spring_pred m d, summer_pred m d, autumn_pred m d, winter_pred m d].count true = 1 ∧
     (calc0.get_season ⟨1, m, d, 0, 0, 0, 0⟩ = .spring ↔ spring_pred m d = true) ∧
     (calc0.get_season ⟨1, m, d, 0, 0, 0, 0⟩ = .summer ↔ summer_pred m d = true) ∧
     (calc0.get_season ⟨1, m, d, 0, 0, 0, 0⟩ = .autumn ↔ autumn_pred m d = true) ∧
     (calc0.get_season ⟨1, m, d, 0, 0, 0, 0⟩ = .winter ↔ winter_pred m d = true)) := by
  decide

/-- Claim C5: over every valid (month, day) pair exactly one of the four
season predicates holds, `_get_season` returns precisely the season
singled out by those predicates, and the boundary dates evaluate to
Spring (3-20), Spring (6-20), Summer (6-21), Autumn (12-20) and
Winter (12-21). -/
theorem season_partition (c : AstroCalculator) (y h mi s mu m d : ℕ)
    (hm1 : 1 ≤ m) (hm2 : m ≤ 12) (hd1 : 1 ≤ d) (hd2 : d ≤ 31) :
    ([spring_pred m d, summer_pred m d, autumn_pred m d, winter_pred m d].count true = 1 ∧
     (c.get_season ⟨y, m, d, h, mi, s, mu⟩ = .spring ↔ spring_pred m d = true) ∧
     (c.get_season ⟨y, m, d, h, mi, s, mu⟩ = .summer ↔ summer_pred m d = true) ∧
     (c.get_season ⟨y, m, d, h, mi, s, mu⟩ = .autumn ↔ autumn_pred m d = true) ∧
     (c.get_season ⟨y, m, d, h, mi, s, mu⟩ = .winter ↔ winter_pred m d = true)) ∧
    c.get_season ⟨y, 3, 20, h, mi, s, mu⟩ = .spring ∧
    c.get_season ⟨y, 6, 20, h, mi, s, mu⟩ = .spring ∧
    c.get_season ⟨y, 6, 21, h, mi, s, mu⟩ = .summer ∧
    c.get_season ⟨y, 12, 20, h, mi, s, mu⟩ = .autumn ∧
    c.get_season ⟨y, 12, 21, h, mi, s, mu⟩ = .winter := by
  refine ⟨season_grid m (by omega) d (by omega), ?_, ?_, ?_, ?_, ?_⟩
  · exact (by decide : calc0.get_season ⟨1, 3, 20, 0, 0, 0, 0⟩ = .spring)
  · exact (by decide : calc0.get_season ⟨1, 6, 20, 0, 0, 0, 0⟩ = .spring)
  · exact (by decide : calc0.get_season ⟨1, 6, 21, 0, 0, 0, 0⟩ = .summer)
  · exact (by decide : calc0.get_season ⟨1, 12, 20, 0, 0, 0, 0⟩ = .autumn)
  · exact (by decide : calc0.get_season ⟨1, 12, 21, 0, 0, 0, 0⟩ = .winter)

/-- Claim C5, witness: the partition statement at month 3, day 20. -/
theorem season_partition_witness :
    ([spring_pred 3 20, summer_pred 3 20, autumn_pred 3 20, winter_pred 3 20].count true = 1 ∧
     (calc0.get_season ⟨1, 3, 20, 0, 0, 0, 0⟩ = .spring ↔ spring_pred 3 20 = true) ∧
     (calc0.get_season ⟨1, 3, 20, 0, 0, 0, 0⟩ = .summer ↔ summer_pred 3 20 = true) ∧
     (calc0.get_season ⟨1, 3, 20, 0, 0, 0, 0⟩ = .autumn ↔ autumn_pred 3 20 = true) ∧
     (calc0.get_season ⟨1, 3, 20, 0, 0, 0, 0⟩ = .winter ↔ winter_pred 3 20 = true)) ∧
    calc0.get_season ⟨1, 3, 20, 0, 0, 0, 0⟩ = .spring ∧
    calc0.get_season ⟨1, 6, 20, 0, 0, 0, 0⟩ = .spring ∧
    calc0.get_season ⟨1, 6, 21, 0, 0, 0, 0⟩ = .summer ∧
    calc0.get_season ⟨1, 12, 20, 0, 0, 0, 0⟩ = .autumn ∧
    calc0.get_season ⟨1, 12, 21, 0, 0, 0, 0⟩ = .winter :=
  season_partition calc0 1 0 0 0 0 3 20 (by decide) (by decide) (by decide) (by decide)

/-- Claim C6: the probe is total and per-source independent: for every
environment the result has exactly one record per tracked name in probe
order; when every tracked source fails to resolve, every record carries
available=false and the (non-empty) resolution error message; and the
records are unchanged by anything outside the tracked names, so one
source's failure cannot block probing the rest. -/
theorem probe_never_fails (env env2 env3 : Env) (msg : String → String)
    (hall : ∀ n, env n = .fail (msg n))
    (hmsg : ∀ n ∈ tracked_names, msg n ≠ "")
    (hagree : ∀ n ∈ tracked_names, env2 n = env n) :
    (check_libraries env3).map Prod.fst = tracked_names ∧
    (∀ p ∈ check_libraries env, p.2.available = false ∧ ∃ e, p.2.error = some e ∧ e ≠ "") ∧
    check_libraries env2 = check_libraries env := by
  refine ⟨rfl, ?_, ?_⟩
  · intro p hp
    simp only [check_libraries, helper_lib_names, List.map_cons, List.map_nil, List.cons_append,
      List.nil_append, List.mem_cons, List.not_mem_nil, or_false] at hp
    rcases hp with rfl | rfl | rfl | rfl | rfl
    · rw [hall]
      exact ⟨rfl, msg "flatlib", rfl, hmsg "flatlib" (by decide)⟩
    · rw [hall]
      exact ⟨rfl, msg "lunardate", rfl, hmsg "lunardate" (by decide)⟩
    · rw [hall]
      exact ⟨rfl, msg "ephem", rfl, hmsg "ephem" (by decide)⟩
    · rw [hall]
      exact ⟨rfl, msg "pytz", rfl, hmsg "pytz" (by decide)⟩
    · rw [hall]
      exact ⟨rfl, msg "dateutil", rfl, hmsg "dateutil" (by decide)⟩
  · simp only [check_libraries, helper_lib_names, List.map_cons, List.map_nil]
    rw [hagree "flatlib" (by decide), hagree "lunardate" (by decide), hagree "ephem" (by decide),
        hagree "pytz" (by decide), hagree "dateutil" (by decide)]

/-- Claim C6, witness: the probe contract at the concrete environment in
which every library fails with the standard interpreter message. -/
theorem probe_never_fails_witness :
    (check_libraries probeAllFailEnv).map Prod.fst = tracked_names ∧
    (∀ p ∈ check_libraries probeAllFailEnv,
      p.2.available = false ∧ ∃ e, p.2.error = some e ∧ e ≠ "") ∧
    check_libraries probeAllFailEnv = check_libraries probeAllFailEnv :=
  probe_never_fails probeAllFailEnv probeAllFailEnv probeAllFailEnv
    (fun n => "No module named " ++ n) (fun _ => rfl) (by decide) (fun _ _ => rfl)

/-- Claim C8: for every probe outcome the capabilities text contains the
four baseline bullets, and it contains the professional-chart bullet
exactly when the flatlib record reports available=true. -/
theorem capabilities_baseline_and_flatlib (env : Env) :
    "• ✅ Julian Day conversions" ∈ capabilities_of env ∧
    "• ✅ Basic astronomical time calculations" ∈ capabilities_of env ∧
    "• ✅ Seasonal determinations" ∈ capabilities_of env ∧
    "• ✅ Date arithmetic and conversions" ∈ capabilities_of env ∧
    ("• ✅ Professional astrological calculations (flatlib)" ∈ capabilities_of env ↔
      ((check_libraries env).lookup "flatlib").map LibInfo.available = some true) := by
  rcases hf : env "flatlib" with v | e <;> rcases hl : env "lunardate" with v2 | e2 <;>
    simp [capabilities_of, AstroCalculator.get_calculation_capabilities, check_libraries,
      helper_lib_names, baseline_capabilities, probeOne, LibInfo.available, List.lookup, hf, hl]

end AstroUtils
